import Mathlib

/-!
Verification of the multi-strategy trading system.

Shallow embedding of the decision components (risk manager, position
sizer, signal-generation guard, RSI, backtest exit logic) over exact
rational arithmetic, together with theorems settling the specification
claims.  Python `int()` truncation toward zero is modelled by `pyInt`;
pandas NaN outcomes are modelled with `Option`.
-/

namespace MST

/-- Python `int()` applied to a rational: truncation toward zero. -/
def pyInt (q : ℚ) : ℤ :=
  if q < 0 then -⌊-q⌋ else ⌊q⌋

lemma pyInt_eq_zero (q : ℚ) (h0 : 0 ≤ q) (h1 : q < 1) : pyInt q = 0 := by
  unfold pyInt
  rw [if_neg (not_lt.mpr h0)]
  exact Int.floor_eq_zero_iff.mpr (Set.mem_Ico.mpr ⟨h0, h1⟩)

/-! ## Risk manager (`trading/risk_manager.py`, class `EnhancedRiskManager`) -/

/-- Session state of `EnhancedRiskManager`: configured limits plus the
mutable tracking fields set in `__init__`. -/
structure RMState where
  maxRiskPerTrade : ℚ
  maxDailyLoss : ℚ
  maxDrawdown : ℚ
  maxPositionValue : ℚ
  dailyPnl : ℚ
  maxPortfolioValue : ℚ
  currentDrawdown : ℚ
  riskEvents : ℕ
  tradeCountToday : ℕ
  maxTradesPerDay : ℕ
  deriving DecidableEq

/-- Constructor `EnhancedRiskManager.__init__`: percentage limits are divided by 100,
tracking fields start at zero, the running peak starts at the account
balance. -/
def mkRiskManager (riskPct dailyLossPct drawdownPct posValPct accountBalance : ℚ)
    (maxTrades : ℕ) : RMState :=
  { maxRiskPerTrade := riskPct / 100
    maxDailyLoss := dailyLossPct / 100
    maxDrawdown := drawdownPct / 100
    maxPositionValue := posValPct / 100
    dailyPnl := 0
    maxPortfolioValue := accountBalance
    currentDrawdown := 0
    riskEvents := 0
    tradeCountToday := 0
    maxTradesPerDay := maxTrades }

/-- Mirrors `update_daily_pnl`: adds the change to the running daily P&L. -/
def updateDailyPnl (s : RMState) (pnlChange : ℚ) : RMState :=
  { s with dailyPnl := s.dailyPnl + pnlChange }

/-- Mirrors `update_drawdown`: a value above the running peak resets the peak and
zeroes the drawdown; otherwise drawdown is the fractional gap to the peak. -/
def updateDrawdown (s : RMState) (v : ℚ) : RMState :=
  if s.maxPortfolioValue < v then
    { s with maxPortfolioValue := v, currentDrawdown := 0 }
  else
    { s with currentDrawdown := (s.maxPortfolioValue - v) / s.maxPortfolioValue }

/-- Mirrors `increment_trade_count`. -/
def incrementTradeCount (s : RMState) : RMState :=
  { s with tradeCountToday := s.tradeCountToday + 1 }

/-- Mirrors `reset_daily_counters`. -/
def resetDailyCounters (s : RMState) : RMState :=
  { s with dailyPnl := 0, tradeCountToday := 0 }

/-- Mirrors `should_stop_trading` (boolean component; the reason string is dropped):
strict daily-loss breach, strict drawdown breach, or trade-count
exhaustion. -/
def shouldStopTrading (s : RMState) : Bool :=
  if s.maxDailyLoss * s.maxPortfolioValue < |s.dailyPnl| then true
  else if s.maxDrawdown < s.currentDrawdown then true
  else if s.maxTradesPerDay ≤ s.tradeCountToday then true
  else false

inductive RiskLevel where
  | MINIMAL | LOW | MEDIUM | HIGH
  deriving DecidableEq

inductive Recommendation where
  | PROCEED | PROCEED_CAUTION | REDUCE_SIZE | REJECT
  deriving DecidableEq

/-- The dictionary returned by `assess_trade_risk` (warnings kept as a
count). -/
structure RiskAssessment where
  riskLevel : RiskLevel
  riskScore : ℕ
  riskPercentage : ℚ
  warnings : ℕ
  recommendation : Recommendation
  suggestedQuantity : ℤ
  maxSafeQuantity : ℤ
  positionValuePct : ℚ
  deriving DecidableEq

/-- The five breach conditions tested by `assess_trade_risk`, in source
order: risk percentage, position size, projected daily loss, drawdown
proximity (80% of the limit), trade-count exhaustion. -/
def riskFlags (s : RMState) (entryPrice : ℚ) (quantity : ℤ)
    (stopLoss accountBalance : ℚ) : Bool × Bool × Bool × Bool × Bool :=
  let riskPerShare := |entryPrice - stopLoss|
  let totalRisk := riskPerShare * (quantity : ℚ)
  let riskPercentage := if 0 < accountBalance then totalRisk / accountBalance else 0
  let maxPositionSize := accountBalance * s.maxPositionValue
  let positionValue := entryPrice * (quantity : ℚ)
  let potentialDailyLoss :=
    if 0 < accountBalance then |s.dailyPnl - totalRisk| / accountBalance else 0
  (decide (s.maxRiskPerTrade < riskPercentage),
   decide (maxPositionSize < positionValue),
   decide (s.maxDailyLoss < potentialDailyLoss),
   decide (s.maxDrawdown * (8 / 10) < s.currentDrawdown),
   decide (s.maxTradesPerDay ≤ s.tradeCountToday))

/-- The fixed per-rule penalties summed into `risk_score`: 3, 2, 3, 2, 2. -/
def scoreOfFlags (f1 f2 f3 f4 f5 : Bool) : ℕ :=
  (cond f1 3 0) + (cond f2 2 0) + (cond f3 3 0) + (cond f4 2 0) + (cond f5 2 0)

/-- Mirrors `assess_trade_risk`, threading the session state through the call: the
method only reads `self`, so the state component of the result is the
input state. -/
def assessTradeRisk (s : RMState) (entryPrice : ℚ) (quantity : ℤ)
    (stopLoss accountBalance : ℚ) : RMState × RiskAssessment :=
  let riskPerShare := |entryPrice - stopLoss|
  let totalRisk := riskPerShare * (quantity : ℚ)
  let riskPercentage := if 0 < accountBalance then totalRisk / accountBalance else 0
  let positionValue := entryPrice * (quantity : ℚ)
  let flags := riskFlags s entryPrice quantity stopLoss accountBalance
  let riskScore := scoreOfFlags flags.1 flags.2.1 flags.2.2.1 flags.2.2.2.1 flags.2.2.2.2
  let warnings := (cond flags.1 1 0) + (cond flags.2.1 1 0) + (cond flags.2.2.1 1 0)
    + (cond flags.2.2.2.1 1 0) + (cond flags.2.2.2.2 1 0)
  let level : RiskLevel × Recommendation :=
    if 5 ≤ riskScore then (RiskLevel.HIGH, Recommendation.REJECT)
    else if 3 ≤ riskScore then (RiskLevel.MEDIUM, Recommendation.REDUCE_SIZE)
    else if 1 ≤ riskScore then (RiskLevel.LOW, Recommendation.PROCEED_CAUTION)
    else (RiskLevel.MINIMAL, Recommendation.PROCEED)
  let safeQuantity :=
    if level.2 = Recommendation.REDUCE_SIZE then
      let maxSafeRisk := accountBalance * s.maxRiskPerTrade
      let sq := if 0 < riskPerShare then pyInt (maxSafeRisk / riskPerShare) else 1
      max 1 (min sq (pyInt ((quantity : ℚ) * (1 / 2))))
    else quantity
  let maxSafeQuantity :=
    if 0 < riskPerShare then pyInt (accountBalance * s.maxRiskPerTrade / riskPerShare)
    else quantity
  (s,
   { riskLevel := level.1
     riskScore := riskScore
     riskPercentage := riskPercentage
     warnings := warnings
     recommendation := level.2
     suggestedQuantity := safeQuantity
     maxSafeQuantity := maxSafeQuantity
     positionValuePct := if 0 < accountBalance then positionValue / accountBalance else 0 })

/-! ### Spec-section-8 scenario states (claim C1) -/

/-- Risk manager of the section-8 scenario: balance 10000, daily-loss
limit 4%, remaining parameters at their defaults. -/
def scenRM : RMState := mkRiskManager 2 4 10 20 10000 5

/-- Scenario state after two 200-rupee losses (daily P&L −400). -/
def scenAfterTwo : RMState := updateDailyPnl (updateDailyPnl scenRM (-200)) (-200)

/-- Scenario state after the third 200-rupee loss (daily P&L −600). -/
def scenAfterThree : RMState := updateDailyPnl scenAfterTwo (-200)

/-- C1 counterexample: after the second loss the daily P&L is exactly the
limit (400 on either side) and the strict comparison does not trip, so
`should_stop_trading` is still false. -/
theorem C1_counterexample : shouldStopTrading scenAfterTwo = false := by
  norm_num [shouldStopTrading, scenAfterTwo, scenRM, mkRiskManager, updateDailyPnl]

/-- C1 (amended): in the section-8 scenario the breaker is still open
after the second 2% loss (|−400| does not strictly exceed the 4% limit of
400) and trips only after the third loss (|−600| > 400). -/
theorem C1_stop_after_third_not_second :
    shouldStopTrading scenAfterTwo = false ∧ shouldStopTrading scenAfterThree = true := by
  constructor <;>
    norm_num [shouldStopTrading, scenAfterThree, scenAfterTwo, scenRM, mkRiskManager,
      updateDailyPnl]

/-! ### Session operations as a single step type (claims C5, C6) -/

/-- One state-changing call on the risk manager between two
`should_stop_trading` checks. -/
inductive RMOp where
  | pnl (p : ℚ)
  | drawdown (v : ℚ)
  | incTrade
  deriving DecidableEq

/-- Apply one session operation. -/
def applyOp (s : RMState) : RMOp → RMState
  | .pnl p => updateDailyPnl s p
  | .drawdown v => updateDrawdown s v
  | .incTrade => incrementTradeCount s

/-- Apply a sequence of session operations, oldest first. -/
def applyOps (s : RMState) (ops : List RMOp) : RMState :=
  ops.foldl applyOp s

lemma applyOp_tradeCount_mono (s : RMState) (op : RMOp) :
    s.tradeCountToday ≤ (applyOp s op).tradeCountToday := by
  cases op with
  | pnl p => exact Nat.le_refl _
  | drawdown v =>
      simp only [applyOp, updateDrawdown]
      split <;> exact Nat.le_refl _
  | incTrade => exact Nat.le_succ _

lemma applyOp_maxTrades_eq (s : RMState) (op : RMOp) :
    (applyOp s op).maxTradesPerDay = s.maxTradesPerDay := by
  cases op with
  | pnl p => rfl
  | drawdown v =>
      simp only [applyOp, updateDrawdown]
      split <;> rfl
  | incTrade => rfl

lemma shouldStop_of_tradeCount (s : RMState)
    (h : s.maxTradesPerDay ≤ s.tradeCountToday) :
    shouldStopTrading s = true := by
  unfold shouldStopTrading
  by_cases h1 : s.maxDailyLoss * s.maxPortfolioValue < |s.dailyPnl|
  · rw [if_pos h1]
  · rw [if_neg h1]
    by_cases h2 : s.maxDrawdown < s.currentDrawdown
    · rw [if_pos h2]
    · rw [if_neg h2, if_pos h]

/-- States used in the C5 counterexample: trip the daily-loss breaker,
then recover with a profit. -/
def latchBase : RMState := mkRiskManager 2 5 10 20 10000 5

/-- Breaker tripped: daily P&L −600 against a 500 limit. -/
def latchTripped : RMState := updateDailyPnl latchBase (-600)

/-- Breaker released again: a +300 update brings the P&L back to −300. -/
def latchReleased : RMState := updateDailyPnl latchTripped 300

/-- C5 counterexample: `should_stop_trading` trips on a −600 daily P&L
(limit 500) but returns false again after a subsequent +300 update — the
breaker is recomputed from current state, not latched. -/
theorem C5_counterexample :
    shouldStopTrading latchTripped = true ∧ shouldStopTrading latchReleased = false := by
  constructor <;>
    norm_num [shouldStopTrading, latchReleased, latchTripped, latchBase, mkRiskManager,
      updateDailyPnl]

/-- C5 (amended): only the trade-count trigger is persistent — once
`trade_count_today` has reached `max_trades_per_day`, every later
`should_stop_trading` check returns true under any sequence of
`update_daily_pnl` / `update_drawdown` / `increment_trade_count` calls,
until an explicit reset; daily-loss and drawdown trips can release. -/
theorem C5_trade_count_trip_persists (s : RMState) (ops : List RMOp)
    (h : s.maxTradesPerDay ≤ s.tradeCountToday) :
    shouldStopTrading (applyOps s ops) = true := by
  induction ops generalizing s with
  | nil => exact shouldStop_of_tradeCount s h
  | cons op rest ih =>
      refine ih (applyOp s op) ?_
      calc (applyOp s op).maxTradesPerDay = s.maxTradesPerDay :=
            applyOp_maxTrades_eq s op
        _ ≤ s.tradeCountToday := h
        _ ≤ (applyOp s op).tradeCountToday := applyOp_tradeCount_mono s op

/-- C5 witness: a manager with a zero trade budget stays stopped across a
P&L update, a drawdown update and a further trade. -/
theorem C5_witness :
    shouldStopTrading
      (applyOps (mkRiskManager 2 5 10 20 10000 0)
        [RMOp.pnl 100, RMOp.drawdown 9000, RMOp.incTrade]) = true :=
  C5_trade_count_trip_persists (mkRiskManager 2 5 10 20 10000 0)
    [RMOp.pnl 100, RMOp.drawdown 9000, RMOp.incTrade]
    (by simp [mkRiskManager])

/-! ### Drawdown recovery (claim C6) -/

/-- Base state for the C6 counterexample: running peak 10000. -/
def ddBase : RMState := mkRiskManager 2 5 10 20 10000 5

/-- After marking portfolio value 8000: drawdown 20%. -/
def ddAt8000 : RMState := updateDrawdown ddBase 8000

/-- After a further mark at 9000 — still below the 10000 peak. -/
def ddAt9000 : RMState := updateDrawdown ddAt8000 9000

/-- C6 counterexample: the drawdown falls from 20% to 10% at a call whose
portfolio value (9000) does not exceed the running peak (10000) — the
drawdown shrinks on any recovery, not only at a new high-water mark. -/
theorem C6_counterexample :
    ddAt9000.currentDrawdown < ddAt8000.currentDrawdown ∧
      (9000 : ℚ) < ddAt8000.maxPortfolioValue := by
  constructor <;>
    norm_num [ddAt9000, ddAt8000, ddBase, mkRiskManager, updateDrawdown]

/-- C6 (amended): across consecutive `update_drawdown` calls the drawdown
never decreases when the portfolio value does not increase (`v2 ≤ v1`),
and it resets to 0 exactly at a call strictly above the running peak; it
can decrease at any call whose value exceeds the previous call's value,
not only at new peaks. -/
theorem C6_drawdown_monotone (s : RMState) (v1 v2 : ℚ)
    (hpv : 0 < s.maxPortfolioValue) :
    (s.maxPortfolioValue < v1 → (updateDrawdown s v1).currentDrawdown = 0) ∧
    (v2 ≤ v1 →
      (updateDrawdown (updateDrawdown s v1) v2).currentDrawdown ≥
        (updateDrawdown s v1).currentDrawdown) := by
  constructor
  · intro hv1
    simp [updateDrawdown, if_pos hv1]
  · intro h21
    by_cases hv1 : s.maxPortfolioValue < v1
    · have hs1 : updateDrawdown s v1 =
          { s with maxPortfolioValue := v1, currentDrawdown := 0 } := by
        simp [updateDrawdown, if_pos hv1]
      rw [hs1]
      have hv2 : ¬ v1 < v2 := not_lt.mpr h21
      have hpos : 0 < v1 := lt_trans hpv hv1
      simp only [updateDrawdown, if_neg hv2]
      have : 0 ≤ (v1 - v2) / v1 :=
        div_nonneg (by linarith) (le_of_lt hpos)
      simpa using this
    · have hs1 : updateDrawdown s v1 =
          { s with currentDrawdown := (s.maxPortfolioValue - v1) / s.maxPortfolioValue } := by
        simp [updateDrawdown, if_neg hv1]
      rw [hs1]
      have hv1le : v1 ≤ s.maxPortfolioValue := not_lt.mp hv1
      have hv2 : ¬ s.maxPortfolioValue < v2 := not_lt.mpr (le_trans h21 hv1le)
      simp only [updateDrawdown, if_neg hv2, ge_iff_le]
      exact div_le_div_of_nonneg_right (by linarith) hpv.le

/-- C6 witness: at peak 10000, marking 8000 then 7000 leaves the
drawdown non-decreasing. -/
theorem C6_witness :
    (updateDrawdown (updateDrawdown (mkRiskManager 2 5 10 20 10000 5) 8000)
        7000).currentDrawdown ≥
      (updateDrawdown (mkRiskManager 2 5 10 20 10000 5) 8000).currentDrawdown :=
  (C6_drawdown_monotone (mkRiskManager 2 5 10 20 10000 5) 8000 7000
    (by norm_num [mkRiskManager])).2 (by norm_num)

/-! ### Risk score as a sum of fixed penalties (claim C7) -/

/-- C7: `risk_score` is exactly the sum of the fixed per-rule penalties
(3, 2, 3, 2, 2) over the five breach flags, and flipping any single flag
from pass to fail never decreases the score. -/
theorem C7_risk_score_sum_and_monotone :
    (∀ (s : RMState) (e : ℚ) (q : ℤ) (sl b : ℚ),
      ((assessTradeRisk s e q sl b).2).riskScore =
        scoreOfFlags (riskFlags s e q sl b).1 (riskFlags s e q sl b).2.1
          (riskFlags s e q sl b).2.2.1 (riskFlags s e q sl b).2.2.2.1
          (riskFlags s e q sl b).2.2.2.2) ∧
    (∀ f2 f3 f4 f5, scoreOfFlags false f2 f3 f4 f5 ≤ scoreOfFlags true f2 f3 f4 f5) ∧
    (∀ f1 f3 f4 f5, scoreOfFlags f1 false f3 f4 f5 ≤ scoreOfFlags f1 true f3 f4 f5) ∧
    (∀ f1 f2 f4 f5, scoreOfFlags f1 f2 false f4 f5 ≤ scoreOfFlags f1 f2 true f4 f5) ∧
    (∀ f1 f2 f3 f5, scoreOfFlags f1 f2 f3 false f5 ≤ scoreOfFlags f1 f2 f3 true f5) ∧
    (∀ f1 f2 f3 f4, scoreOfFlags f1 f2 f3 f4 false ≤ scoreOfFlags f1 f2 f3 f4 true) := by
  refine ⟨fun s e q sl b => rfl, ?_, ?_, ?_, ?_, ?_⟩ <;> decide

/-! ### Assessment leaves session state unchanged (claim C10) -/

/-- C10: `assess_trade_risk` only reads the session state — the state
component of its result is the input state, for every trade proposal,
including ones that end in a REJECT recommendation. -/
theorem C10_assess_preserves_state :
    ∀ (s : RMState) (e : ℚ) (q : ℤ) (sl b : ℚ),
      (assessTradeRisk s e q sl b).1 = s :=
  fun _ _ _ _ _ => rfl

/-! ## Position sizer (`trading/position_sizer.py`, class `EnhancedPositionSizer`) -/

/-- Configuration of `EnhancedPositionSizer.__init__` plus the
`stop_loss_atr_multiple` key read inside `calculate_position_size`
(`maxRisk` is already divided by 100, as in the constructor). -/
structure PSConfig where
  maxRisk : ℚ
  baseSize : ℚ
  confidenceMult : Bool
  volatilityAdj : Bool
  stopAtrMult : ℚ
  deriving DecidableEq

/-- Default configuration values of the constructor. -/
def defaultPSConfig : PSConfig :=
  { maxRisk := (3 / 2) / 100
    baseSize := 6 / 10
    confidenceMult := true
    volatilityAdj := true
    stopAtrMult := 5 / 2 }

/-- Mirrors `scale_nifty_atr_to_instrument`: price-ratio × instrument-volatility
scaling against a typical NIFTY price of 25000, clamped to [1%, 8%] of the
traded price for the three known symbols, and to [1.5%, 6%] with a plain
price ratio for unknown symbols. -/
def scaleNiftyAtrToInstrument (niftyAtr currentPrice : ℚ) (symbol : String) : ℚ :=
  if symbol = "NIFTYBEES" ∨ symbol = "JUNIORBEES" ∨ symbol = "BANKBEES" then
    let atrScale : ℚ :=
      if symbol = "NIFTYBEES" then 8 / 10
      else if symbol = "JUNIORBEES" then 9 / 10
      else 11 / 10
    let scaled := niftyAtr * (currentPrice / 25000) * atrScale
    max (currentPrice * (1 / 100)) (min scaled (currentPrice * (8 / 100)))
  else
    let scaled := niftyAtr * (currentPrice / 25000)
    max (currentPrice * (15 / 1000)) (min scaled (currentPrice * (6 / 100)))

/-- ASCII uppercase of one character, as Python `str.upper` acts on the
ASCII range. -/
def upChar (c : Char) : Char :=
  if 97 ≤ c.toNat ∧ c.toNat ≤ 122 then Char.ofNat (c.toNat - 32) else c

/-- Python `symbol.upper()` for ASCII strings. -/
def pyUpper (s : String) : String := ⟨s.data.map upChar⟩

/-- Mirrors `get_mis_leverage`: per-symbol intraday leverage lookup on the
upper-cased symbol, default 3×. -/
def getMisLeverage (symbol : String) : ℚ :=
  if pyUpper symbol = "NIFTYBEES" then 4
  else if pyUpper symbol = "JUNIORBEES" then 4
  else if pyUpper symbol = "BANKBEES" then 7 / 2
  else if pyUpper symbol = "LIQUIDBEES" then 3
  else if pyUpper symbol = "RELIANCE" then 7 / 2
  else if pyUpper symbol = "TCS" then 7 / 2
  else if pyUpper symbol = "HDFCBANK" then 7 / 2
  else if pyUpper symbol = "ICICIBANK" then 7 / 2
  else if pyUpper symbol = "INFY" then 7 / 2
  else if pyUpper symbol = "HINDUNILVR" then 7 / 2
  else if pyUpper symbol = "ITC" then 7 / 2
  else if pyUpper symbol = "KOTAKBANK" then 7 / 2
  else if pyUpper symbol = "LT" then 7 / 2
  else if pyUpper symbol = "SBIN" then 7 / 2
  else if pyUpper symbol = "BAJFINANCE" then 3
  else 3

lemma ite_pos_of_pos {c : Prop} [Decidable c] {a b : ℚ} (ha : 0 < a) (hb : 0 < b) :
    0 < if c then a else b := by
  split <;> assumption

lemma getMisLeverage_pos (symbol : String) : 0 < getMisLeverage symbol := by
  unfold getMisLeverage
  repeat' apply ite_pos_of_pos
  all_goals norm_num

/-- Mirrors `calculate_minimum_quantity`: note the final `min(min_quantity,
max_affordable, 1)`, which caps the "minimum viable quantity" at one
share (and at zero shares when even one is unaffordable within 85% of the
balance). -/
def calcMinimumQuantity (accountBalance currentPrice leverage : ℚ) : ℤ :=
  let minTradeValue := max (accountBalance * (3 / 1000)) 500
  let minQuantity := max 1 (pyInt (minTradeValue / currentPrice))
  let marginPerShare := currentPrice / leverage
  let maxAffordable := pyInt ((accountBalance * (85 / 100)) / marginPerShare)
  min minQuantity (min maxAffordable 1)

/-- The dictionary returned by `calculate_position_size`. -/
structure PositionSizing where
  quantity : ℤ
  marginRequired : ℚ
  tradeValue : ℚ
  capitalUtilization : ℚ
  confidenceFactor : ℚ
  volatilityFactor : ℚ
  riskPerTrade : ℚ
  riskPercentage : ℚ
  leverageUsed : ℚ
  stopLossDistance : ℚ
  scaledAtr : ℚ
  originalAtr : ℚ
  maxRiskConstraint : ℤ
  capitalConstraint : ℤ
  deriving DecidableEq

/-- Mirrors `calculate_position_size`: input clamping, ATR scaling,
confidence/volatility-adjusted capital under leverage, risk- and
capital-constrained share counts, minimum-viable floor, 90%-of-balance
affordability cap, and the final one-share floor. -/
def calculatePositionSize (cfg : PSConfig) (accountBalance currentPrice
    atrValue signalConfidence : ℚ) (symbol : String) : PositionSizing :=
  let balance := max accountBalance 1000
  let price := max currentPrice 1
  let confidence := max signalConfidence (3 / 10)
  let scaledAtr := scaleNiftyAtrToInstrument atrValue price symbol
  let baseCapital := balance * cfg.baseSize
  let adjustedCapital :=
    if cfg.confidenceMult then baseCapital * (1 / 2 + confidence * (1 / 2))
    else baseCapital
  let volatilityFactor :=
    if cfg.volatilityAdj ∧ 0 < scaledAtr then
      max (3 / 10) (min 1 ((price * (2 / 100)) / scaledAtr))
    else 1
  let volCapital :=
    if cfg.volatilityAdj ∧ 0 < scaledAtr then adjustedCapital * volatilityFactor
    else adjustedCapital
  let misLeverage := getMisLeverage symbol
  let effectiveCapital := volCapital * misLeverage
  let stopDistance := scaledAtr * cfg.stopAtrMult
  let maxRiskAmount := balance * cfg.maxRisk
  let maxSharesByRisk :=
    if 0 < stopDistance then pyInt (maxRiskAmount / stopDistance) else 1
  let maxSharesByCapital := pyInt (effectiveCapital / price)
  let baseQuantity := min maxSharesByCapital maxSharesByRisk
  let minQuantity := calcMinimumQuantity balance price misLeverage
  let q0 := max minQuantity baseQuantity
  let maxAffordableQuantity := pyInt ((balance * (9 / 10)) / (price / misLeverage))
  let q1 := if maxAffordableQuantity < q0 then maxAffordableQuantity else q0
  let margin1 :=
    if maxAffordableQuantity < q0 then
      (maxAffordableQuantity : ℚ) * (price / misLeverage)
    else (q0 : ℚ) * (price / misLeverage)
  let quantity := if q1 < 1 then 1 else q1
  let marginRequired := if q1 < 1 then price / misLeverage else margin1
  let actualRiskAmount := (quantity : ℚ) * stopDistance
  { quantity := quantity
    marginRequired := marginRequired
    tradeValue := (quantity : ℚ) * price
    capitalUtilization := if 0 < balance then marginRequired / balance else 0
    confidenceFactor := confidence
    volatilityFactor := volatilityFactor
    riskPerTrade := actualRiskAmount
    riskPercentage := if 0 < balance then (actualRiskAmount / balance) * 100 else 0
    leverageUsed := misLeverage
    stopLossDistance := stopDistance
    scaledAtr := scaledAtr
    originalAtr := atrValue
    maxRiskConstraint := maxSharesByRisk
    capitalConstraint := maxSharesByCapital }

lemma one_le_clamp (q : ℤ) : 1 ≤ (if q < 1 then 1 else q) := by
  split
  · exact le_refl 1
  · omega

/-- The sizer's final one-share floor, independent of every other input. -/
lemma calcPos_quantity_ge_one (cfg : PSConfig) (b p a c : ℚ) (symbol : String) :
    1 ≤ (calculatePositionSize cfg b p a c symbol).quantity := by
  unfold calculatePositionSize
  dsimp only
  exact one_le_clamp _

/-- C9: `calculate_position_size` always returns at least one share; and
when even a single share's margin exceeds the (clamped) balance, the
result is exactly one share with `margin_required` equal to one share's
margin, which then exceeds the balance — affordability is left to the
caller. -/
theorem C9_quantity_never_zero :
    ∀ (cfg : PSConfig) (b p a c : ℚ) (symbol : String),
      1 ≤ (calculatePositionSize cfg b p a c symbol).quantity ∧
      (max b 1000 < max p 1 / getMisLeverage symbol →
        (calculatePositionSize cfg b p a c symbol).quantity = 1 ∧
        (calculatePositionSize cfg b p a c symbol).marginRequired =
          max p 1 / getMisLeverage symbol) := by
  intro cfg b p a c symbol
  refine ⟨calcPos_quantity_ge_one cfg b p a c symbol, ?_⟩
  intro hUnaff
  have hlev := getMisLeverage_pos symbol
  have hM : (0 : ℚ) < max b 1000 := lt_of_lt_of_le (by norm_num) (le_max_right b 1000)
  have hp : (0 : ℚ) < max p 1 := lt_of_lt_of_le (by norm_num) (le_max_right p 1)
  have hmps : (0 : ℚ) < max p 1 / getMisLeverage symbol := div_pos hp hlev
  have hAff : pyInt (max b 1000 * (9 / 10) / (max p 1 / getMisLeverage symbol)) = 0 := by
    apply pyInt_eq_zero
    · exact div_nonneg (mul_nonneg hM.le (by norm_num)) hmps.le
    · rw [div_lt_one hmps]; linarith
  have hAff85 : pyInt (max b 1000 * (85 / 100) / (max p 1 / getMisLeverage symbol)) = 0 := by
    apply pyInt_eq_zero
    · exact div_nonneg (mul_nonneg hM.le (by norm_num)) hmps.le
    · rw [div_lt_one hmps]; linarith
  unfold calculatePositionSize calcMinimumQuantity
  dsimp only
  rw [hAff, hAff85]
  have hminq :
      min (max 1 (pyInt (max (max b 1000 * (3 / 1000)) 500 / max p 1))) (min (0 : ℤ) 1) = 0 := by
    rw [min_eq_left (by norm_num : (0 : ℤ) ≤ 1)]
    exact min_eq_right (le_trans (by norm_num) (le_max_left 1 _))
  rw [hminq]
  constructor <;> split_ifs <;> first | rfl | omega

/-- C9 witness: balance 1000, price 10000, symbol TCS (3.5× leverage) —
one share's margin 20000/7 exceeds the balance, yet quantity 1 is returned
with that margin. -/
theorem C9_witness :
    (calculatePositionSize defaultPSConfig 1000 10000 100 (1 / 2) "TCS").quantity = 1 ∧
    (calculatePositionSize defaultPSConfig 1000 10000 100 (1 / 2) "TCS").marginRequired =
      max (10000 : ℚ) 1 / getMisLeverage "TCS" :=
  (C9_quantity_never_zero defaultPSConfig 1000 10000 100 (1 / 2) "TCS").2
    (by
      rw [show getMisLeverage "TCS" = 7 / 2 from by simp [getMisLeverage, show pyUpper "TCS" = "TCS" from by decide],
        show max (1000 : ℚ) 1000 = 1000 from max_self 1000,
        show max (10000 : ℚ) 1 = 10000 from max_eq_left (by norm_num)]
      norm_num)

/-- C4: whenever one share is affordable under leverage within 90% of the
balance (`price × 1 ≤ balance × 0.9 × leverage`), the sizer returns at
least one share — an actionable signal is never rounded down to zero. -/
theorem C4_affordable_never_zero :
    ∀ (cfg : PSConfig) (b p a c : ℚ) (symbol : String),
      p * 1 ≤ b * (9 / 10) * getMisLeverage symbol →
      1 ≤ (calculatePositionSize cfg b p a c symbol).quantity := by
  intro cfg b p a c symbol _
  exact calcPos_quantity_ge_one cfg b p a c symbol

/-- C4 witness: the section-8 sizing scenario — balance 20000, price 280,
NIFTYBEES at 4× leverage. -/
theorem C4_witness :
    ((280 : ℚ) * 1 ≤ 20000 * (9 / 10) * getMisLeverage "NIFTYBEES") ∧
    1 ≤ (calculatePositionSize defaultPSConfig 20000 280 (28 / 5) (8 / 10)
      "NIFTYBEES").quantity :=
  ⟨by rw [show getMisLeverage "NIFTYBEES" = 4 from by simp [getMisLeverage, show pyUpper "NIFTYBEES" = "NIFTYBEES" from by decide]]; norm_num,
   C4_affordable_never_zero defaultPSConfig 20000 280 (28 / 5) (8 / 10) "NIFTYBEES"
     (by rw [show getMisLeverage "NIFTYBEES" = 4 from by simp [getMisLeverage, show pyUpper "NIFTYBEES" = "NIFTYBEES" from by decide]]; norm_num)⟩

/-! ## Strategy signal guard (`trading/enhanced_strategy.py`,
`EnhancedTradingStrategy.get_signal`, lines 274–281) -/

/-- The lookback-relevant strategy parameters read by the insufficient-data
guard of `get_signal`. -/
structure StratConfig where
  stPeriod : ℕ
  rsiPeriod : ℕ
  macdSlow : ℕ
  bbPeriod : ℕ
  volumePeriod : ℕ
  deriving DecidableEq

/-- Constructor defaults: SuperTrend 10, RSI 14, MACD slow 26, Bollinger
20, volume 20. -/
def defaultStratConfig : StratConfig :=
  { stPeriod := 10, rsiPeriod := 14, macdSlow := 26, bbPeriod := 20, volumePeriod := 20 }

/-- Computes `min_data_needed = max(st_period, rsi_period, macd_slow, bb_period,
volume_period)`. -/
def minDataNeeded (cfg : StratConfig) : ℕ :=
  max (max (max (max cfg.stPeriod cfg.rsiPeriod) cfg.macdSlow) cfg.bbPeriod) cfg.volumePeriod

inductive SigDir where
  | BUY | SELL | HOLD
  deriving DecidableEq

/-- The second component returned by `get_signal`: either the
insufficient-data error dictionary (which carries only an `error` entry)
or a full signal dictionary carrying a confidence entry. -/
inductive SignalPayload where
  | errorPayload (msg : String)
  | fullPayload (confidence : ℚ)
  deriving DecidableEq

/-- Lookup of the `confidence` key in a signal payload: the error
dictionary has no such entry. -/
def confidenceEntry : SignalPayload → Option ℚ
  | .errorPayload _ => none
  | .fullPayload c => some c

/-- The insufficient-data guard at the top of `get_signal`: for a window
shorter than the largest lookback it returns `("HOLD", {"error":
"Insufficient data"})`; `none` means control passes on to the full signal
computation. -/
def getSignalGuard (cfg : StratConfig) (dataLen : ℕ) : Option (SigDir × SignalPayload) :=
  if dataLen < minDataNeeded cfg then
    some (SigDir.HOLD, SignalPayload.errorPayload "Insufficient data")
  else none

/-- C3 counterexample: a 5-bar window under the default configuration
(lookback 26) yields HOLD with the error payload, whose signal data has no
confidence entry at all — in particular its confidence value is not 0. -/
theorem C3_counterexample :
    getSignalGuard defaultStratConfig 5 =
      some (SigDir.HOLD, SignalPayload.errorPayload "Insufficient data") ∧
    confidenceEntry (SignalPayload.errorPayload "Insufficient data") ≠ some 0 := by
  constructor
  · rfl
  · simp [confidenceEntry]

/-- C3 (amended): every window shorter than the largest configured
lookback makes `get_signal` return early — no exception — with direction
HOLD and the insufficient-data error dictionary, which carries no
confidence entry. -/
theorem C3_short_window_holds (cfg : StratConfig) (n : ℕ) (h : n < minDataNeeded cfg) :
    getSignalGuard cfg n =
      some (SigDir.HOLD, SignalPayload.errorPayload "Insufficient data") ∧
    confidenceEntry (SignalPayload.errorPayload "Insufficient data") = none := by
  exact ⟨if_pos h, rfl⟩

/-- C3 witness: 5 bars under the default configuration. -/
theorem C3_witness :
    getSignalGuard defaultStratConfig 5 =
      some (SigDir.HOLD, SignalPayload.errorPayload "Insufficient data") ∧
    confidenceEntry (SignalPayload.errorPayload "Insufficient data") = none :=
  C3_short_window_holds defaultStratConfig 5 (by decide)

/-! ## RSI (`EnhancedTradingStrategy.calculate_rsi`)

`delta = close.diff()`, gains are positive deltas, losses are negated
negative deltas, both averaged over a rolling window; `rs = gain/loss`,
`rsi = 100 - 100/(1+rs)`.  The pandas float semantics at a zero loss
average are kept: `gain/0` with a positive gain is `+inf`, so the RSI is
exactly 100; `0/0` is NaN and propagates — modelled by `Option`. -/

/-- Difference `close.diff()` at index `j` (indices read with a default of 0; the
theorems only use in-range indices with `1 ≤ j`). -/
def deltaAt (closes : List ℚ) (j : ℕ) : ℚ :=
  closes.getD j 0 - closes.getD (j - 1) 0

/-- Gain series `delta.where(delta > 0, 0)` at index `j`. -/
def gainAt (closes : List ℚ) (j : ℕ) : ℚ := max (deltaAt closes j) 0

/-- Loss series `(-delta).where(delta < 0, 0)` at index `j`. -/
def lossAt (closes : List ℚ) (j : ℕ) : ℚ := max (-(deltaAt closes j)) 0

/-- Rolling mean of gains over the window ending at index `i`. -/
def avgGain (period : ℕ) (closes : List ℚ) (i : ℕ) : ℚ :=
  (((List.range period).map fun k => gainAt closes (i - k)).sum) / period

/-- Rolling mean of losses over the window ending at index `i`. -/
def avgLoss (period : ℕ) (closes : List ℚ) (i : ℕ) : ℚ :=
  (((List.range period).map fun k => lossAt closes (i - k)).sum) / period

/-- Value `rsi = 100 - 100/(1+gain/loss)` at index `i`, with the float
semantics of the zero-loss cases: positive gain over zero loss gives
RSI 100 (`rs = +inf`), zero over zero gives NaN (`none`). -/
def rsiAt (period : ℕ) (closes : List ℚ) (i : ℕ) : Option ℚ :=
  let g := avgGain period closes i
  let l := avgLoss period closes i
  if 0 < l then some (100 - 100 / (1 + g / l))
  else if 0 < g then some 100
  else none

lemma sum_map_nonneg (f : ℕ → ℚ) (l : List ℕ) (h : ∀ x, 0 ≤ f x) :
    0 ≤ (l.map f).sum := by
  induction l with
  | nil => simp
  | cons a t ih =>
      rw [List.map_cons, List.sum_cons]
      exact add_nonneg (h a) ih

lemma avgGain_nonneg (period : ℕ) (closes : List ℚ) (i : ℕ) :
    0 ≤ avgGain period closes i :=
  div_nonneg (sum_map_nonneg _ _ fun _ => le_max_right _ 0) (Nat.cast_nonneg period)

lemma avgLoss_nonneg (period : ℕ) (closes : List ℚ) (i : ℕ) :
    0 ≤ avgLoss period closes i :=
  div_nonneg (sum_map_nonneg _ _ fun _ => le_max_right _ 0) (Nat.cast_nonneg period)

/-- C8 counterexample: a flat window (all closes equal) has zero average
gain AND zero average loss, so `rs = 0/0` is NaN and the RSI is undefined
(NaN propagates through `100 - 100/(1+rs)`) — not 100 and not in [0,100],
although the trailing loss average is 0. -/
theorem C8_counterexample :
    rsiAt 14 [100, 100, 100, 100, 100, 100, 100, 100, 100, 100, 100, 100, 100, 100, 100]
        14 = none ∧
    avgLoss 14 [100, 100, 100, 100, 100, 100, 100, 100, 100, 100, 100, 100, 100, 100, 100]
        14 = 0 := by
  have hrange : List.range 14 = [0, 1, 2, 3, 4, 5, 6, 7, 8, 9, 10, 11, 12, 13] := rfl
  have hg : avgGain 14
      [100, 100, 100, 100, 100, 100, 100, 100, 100, 100, 100, 100, 100, 100, 100] 14 = 0 := by
    norm_num [avgGain, gainAt, deltaAt, hrange]
  have hl : avgLoss 14
      [100, 100, 100, 100, 100, 100, 100, 100, 100, 100, 100, 100, 100, 100, 100] 14 = 0 := by
    norm_num [avgLoss, lossAt, deltaAt, hrange]
  refine ⟨?_, hl⟩
  simp [rsiAt, hg, hl]

/-- C8 (amended): whenever the trailing window is not flat (average gain
and average loss not both zero), the RSI is defined, lies in [0, 100],
and equals 100 exactly when the trailing loss average is 0; when both
averages are zero the RSI is NaN (undefined). -/
theorem C8_rsi_range (period : ℕ) (closes : List ℚ) (i : ℕ) :
    (¬(avgGain period closes i = 0 ∧ avgLoss period closes i = 0) →
      ∃ r, rsiAt period closes i = some r ∧ 0 ≤ r ∧ r ≤ 100 ∧
        (r = 100 ↔ avgLoss period closes i = 0)) ∧
    (avgGain period closes i = 0 ∧ avgLoss period closes i = 0 →
      rsiAt period closes i = none) := by
  have hg := avgGain_nonneg period closes i
  have hl := avgLoss_nonneg period closes i
  constructor
  · intro h
    unfold rsiAt
    dsimp only
    by_cases hlpos : 0 < avgLoss period closes i
    · rw [if_pos hlpos]
      set rs := avgGain period closes i / avgLoss period closes i with hrsd
      have hrs : 0 ≤ rs := div_nonneg hg hlpos.le
      have h1rs : 0 < 1 + rs := by linarith
      have hfp : 0 < 100 / (1 + rs) := by positivity
      have hfle : 100 / (1 + rs) ≤ 100 := by
        rw [div_le_iff₀ h1rs]
        nlinarith
      refine ⟨100 - 100 / (1 + rs), rfl, by linarith, by linarith, ?_, ?_⟩
      · intro h100
        exfalso
        have hz : (100 : ℚ) / (1 + rs) = 0 := by linarith
        linarith
      · intro hl0
        exact absurd hl0 (ne_of_gt hlpos)
    · rw [if_neg hlpos]
      have hl0 : avgLoss period closes i = 0 := le_antisymm (not_lt.mp hlpos) hl
      have hgpos : 0 < avgGain period closes i := by
        rcases hg.lt_or_eq with h' | h'
        · exact h'
        · exact absurd ⟨h'.symm, hl0⟩ h
      rw [if_pos hgpos]
      exact ⟨100, rfl, by norm_num, le_refl 100, by simp [hl0]⟩
  · rintro ⟨hg0, hl0⟩
    simp [rsiAt, hg0, hl0]

/-- C8 witness: the alternating series 1, 2, 1 at period 2 — both
averages are 1/2, the RSI is defined and sits in range. -/
theorem C8_witness :
    ∃ r, rsiAt 2 [1, 2, 1] 2 = some r ∧ 0 ≤ r ∧ r ≤ 100 ∧
      (r = 100 ↔ avgLoss 2 [1, 2, 1] 2 = 0) :=
  (C8_rsi_range 2 [1, 2, 1] 2).1
    (by
      rintro ⟨-, hl⟩
      revert hl
      norm_num [avgLoss, lossAt, deltaAt, show List.range 2 = [0, 1] from rfl])

/-! ## Backtest exit conditions (`backtesting/backtest_engine.py`,
`BacktestEngine.check_exit_conditions`)

The method is one `if`/`elif` chain: stop-loss (long/short), take-profit
(long/short), then `elif len(data) > 50:` — inside which the strategy's
current signal may trigger a reversal exit — and only then `elif
(timestamp - entry_time) > 4*3600:` for the time limit.  The strategy's
signal on the current window is passed here as a parameter (`signal`);
timestamps are rationals in seconds. -/

/-- The fields of the open-position dictionary read by
`check_exit_conditions`. -/
structure BTPosition where
  quantity : ℤ
  stopLoss : ℚ
  takeProfit : ℚ
  entryTime : ℚ
  deriving DecidableEq

/-- Decision of `check_exit_conditions`: `some reason` means the position is
closed on this bar with that exit reason, `none` means no exit. -/
def checkExitReason (pos : BTPosition) (timestamp price : ℚ) (dataLen : ℕ)
    (signal : SigDir) : Option String :=
  let isLong := 0 < pos.quantity
  if isLong ∧ price ≤ pos.stopLoss then some "Stop Loss"
  else if ¬isLong ∧ pos.stopLoss ≤ price then some "Stop Loss"
  else if isLong ∧ pos.takeProfit ≤ price then some "Take Profit"
  else if ¬isLong ∧ price ≤ pos.takeProfit then some "Take Profit"
  else if 50 < dataLen then
    if (isLong ∧ signal = SigDir.SELL) ∨ (¬isLong ∧ signal = SigDir.BUY) then
      some "Signal Reversal"
    else none
  else if 4 * 3600 < timestamp - pos.entryTime then some "Time Limit"
  else none

/-- C2: a long position held five hours (past the four-hour limit), at a
price strictly between stop-loss and take-profit, with a HOLD signal and a
60-bar window — the window length alone selects the signal-reversal
branch, the time-limit `elif` is never reached, and no exit happens.  Every
backtest bar has at least 51 rows, so the timeout exit is unreachable in
the loop; the claimed timeout close does not occur. -/
theorem C2_timeout_unreachable :
    checkExitReason ⟨1, 90, 120, 0⟩ 18000 100 60 SigDir.HOLD = none ∧
    (4 * 3600 : ℚ) < 18000 - 0 := by
  constructor
  · norm_num [checkExitReason]
    intro h
    exact absurd h (by decide)
  · norm_num

end MST
